import Mathlib

set_option autoImplicit false

namespace VR

deriving instance DecidableEq for Except

/-- Byte-level model of a browser Blob: raw bytes plus a MIME type string. -/
structure Blob where
  data : List Nat
  type : String
deriving DecidableEq, Repr

/-- The Recording entity of src/unnamed/part_001 (first revision): `audioBlob` is the
runtime Blob, `audioData` the persisted byte buffer, `mimeType` the persisted tag.
Dates are modelled as numeric timestamps. -/
structure Recording where
  id : String
  uri : String
  audioBlob : Option Blob
  audioData : Option (List Nat)
  mimeType : Option String
  duration : Nat
  date : Nat
  transcript : Option String
  isTranscribing : Option Bool
  title : Option String
deriving DecidableEq, Repr

/-- The IndexedDB object store keyed by `id`, modelled as a list of rows. -/
def Store : Type := List Recording

instance : DecidableEq Store := by
  unfold Store
  infer_instance

/-- `db.get('recordings', id)`: the row whose key equals `id`, if any. -/
def dbGet (s : Store) (id : String) : Option Recording :=
  List.find? (fun r => r.id == id) s

/-- `db.put('recordings', r)`: upsert keyed by `r.id`. -/
def dbPut (s : Store) (r : Recording) : Store :=
  if List.any s (fun x => x.id == r.id) then
    List.map (fun x => if x.id == r.id then r else x) s
  else
    List.append s [r]

/-- `db.delete('recordings', id)`: remove the row keyed by `id`. -/
def dbDelete (s : Store) (id : String) : Store :=
  List.filter (fun r => !(r.id == id)) s

/-- Process state around the store: the table, a counter feeding
`URL.createObjectURL` (to make fresh blob URLs explicit), and the list of
URLs passed to `URL.revokeObjectURL`. -/
structure Env where
  store : Store
  nextUrl : Nat
  revoked : List String
deriving DecidableEq

/-- `URL.createObjectURL`: the n-th blob URL handed out by the process. -/
def mkBlobUrl (n : Nat) : String :=
  String.append "blob:local/" (toString n)

/-- `StorageService.saveRecording` (second revision, the one with binary-safe
persistence): when a Blob is present, its bytes and type are copied into
`audioData`/`mimeType` and the Blob itself is dropped from the stored row;
all other fields of the recording (including `uri`) are spread into the row. -/
def saveRecording (env : Env) (recording : Recording) : Env :=
  match recording.audioBlob with
  | some blob =>
      let recordingToStore : Recording :=
        { recording with
            audioBlob := none
            audioData := some blob.data
            mimeType := some blob.type }
      { env with store := dbPut env.store recordingToStore }
  | none =>
      { env with store := dbPut env.store recording }

/-- The read-side re-materialization shared by `getRecording` and
`getAllRecordings`: when the row has `audioData` and a truthy (non-empty)
`mimeType`, rebuild the Blob, and mint a fresh blob URL only when the stored
`uri` is falsy (empty). Returns the recording plus the updated URL counter. -/
def rehydrate (rec : Recording) (n : Nat) : Recording × Nat :=
  match rec.audioData, rec.mimeType with
  | some bytes, some mt =>
      if mt ≠ "" then
        let withBlob : Recording := { rec with audioBlob := some { data := bytes, type := mt } }
        if withBlob.uri = "" then
          ({ withBlob with uri := mkBlobUrl n }, n + 1)
        else
          (withBlob, n)
      else (rec, n)
  | _, _ => (rec, n)

/-- `StorageService.getRecording` (second revision). -/
def getRecording (env : Env) (id : String) : Option Recording × Env :=
  match dbGet env.store id with
  | some rec =>
      let pr := rehydrate rec env.nextUrl
      (some pr.1, { env with nextUrl := pr.2 })
  | none => (none, env)

/-- `StorageService.getAllRecordings` (second revision): re-materialize every row. -/
def getAllRecordings (env : Env) : List Recording × Env :=
  let res := List.foldl
    (fun (acc : List Recording × Nat) rec =>
      let pr := rehydrate rec acc.2
      (List.append acc.1 [pr.1], pr.2))
    ([], env.nextUrl) env.store
  (res.1, { env with nextUrl := res.2 })

/-- A `Partial<Recording>` patch: present fields override, absent fields keep
the stored value. -/
structure RecordingPatch where
  id : Option String
  uri : Option String
  audioBlob : Option (Option Blob)
  audioData : Option (Option (List Nat))
  mimeType : Option (Option String)
  duration : Option Nat
  date : Option Nat
  transcript : Option (Option String)
  isTranscribing : Option (Option Bool)
  title : Option (Option String)
deriving DecidableEq

/-- Object spread `{ ...recording, ...updates }`. -/
def applyPatch (r : Recording) (p : RecordingPatch) : Recording :=
  { id := Option.getD p.id r.id
    uri := Option.getD p.uri r.uri
    audioBlob := Option.getD p.audioBlob r.audioBlob
    audioData := Option.getD p.audioData r.audioData
    mimeType := Option.getD p.mimeType r.mimeType
    duration := Option.getD p.duration r.duration
    date := Option.getD p.date r.date
    transcript := Option.getD p.transcript r.transcript
    isTranscribing := Option.getD p.isTranscribing r.isTranscribing
    title := Option.getD p.title r.title }

/-- `StorageService.updateRecording`: read-modify-write merge; nothing happens
when the id is absent. -/
def updateRecording (env : Env) (id : String) (updates : RecordingPatch) : Env :=
  match dbGet env.store id with
  | some recording => { env with store := dbPut env.store (applyPatch recording updates) }
  | none => env

/-- `StorageService.deleteRecording`: revoke the row's blob URL when the row
exists and its `uri` is truthy, then delete the row. -/
def deleteRecording (env : Env) (id : String) : Env :=
  let env1 :=
    match dbGet env.store id with
    | some recording =>
        if recording.uri ≠ "" then { env with revoked := List.append env.revoked [recording.uri] }
        else env
    | none => env
  { env1 with store := dbDelete env1.store id }

/-- MediaRecorder state values. -/
inductive MRState where
  | inactive
  | recording
  | paused
deriving DecidableEq, Repr

/-- The MediaRecorder handle: the mime type it reports and its state. -/
structure MRec where
  mimeType : String
  state : MRState
deriving DecidableEq, Repr

/-- The device boundary of `AudioRecorderService`: whether
`navigator.mediaDevices.getUserMedia` exists, whether the permission request
succeeds, which mime types `MediaRecorder.isTypeSupported` accepts, and the
mime type the recorder reports when constructed with empty options. -/
structure Device where
  hasMediaDevices : Bool
  getUserMediaOk : Bool
  supported : String → Bool
  defaultMime : String

/-- The mutable fields of `AudioRecorderService`. -/
structure RecSvc where
  mediaRecorder : Option MRec
  audioChunks : List Blob
  stream : Option Unit
  startTime : Nat
deriving DecidableEq, Repr

/-- Errors thrown by the recorder service. -/
inductive RecErr where
  | unsupported
  | deviceUnavailable
  | noActive
  | invalidStopState
  | stopTimeout
  | noData
  | recorderError
  | stopThrew
deriving DecidableEq, Repr

/-- The mime-type preference chain of `startRecording` (lines 40-52):
`audio/webm`, then `audio/mp4`, then `audio/ogg`; empty options otherwise. -/
def chooseOptions (d : Device) : Option String :=
  if d.supported "audio/webm" then some "audio/webm"
  else if d.supported "audio/mp4" then some "audio/mp4"
  else if d.supported "audio/ogg" then some "audio/ogg"
  else none

/-- The mime type the constructed MediaRecorder reports: the chosen option, or
the device default when the options were left empty. -/
def selectMime (d : Device) : String :=
  Option.getD (chooseOptions d) d.defaultMime

/-- `AudioRecorderService.startRecording`: support check, stream reuse or
acquisition, mime selection, then a fresh recorder with an emptied chunk
buffer and the start timestamp set to `now`. No check of any prior recorder. -/
def startRecording (svc : RecSvc) (d : Device) (now : Nat) : Except RecErr RecSvc :=
  if d.hasMediaDevices then
    match svc.stream with
    | some _ =>
        Except.ok
          { mediaRecorder := some { mimeType := selectMime d, state := MRState.recording }
            audioChunks := []
            stream := some ()
            startTime := now }
    | none =>
        if d.getUserMediaOk then
          Except.ok
            { mediaRecorder := some { mimeType := selectMime d, state := MRState.recording }
              audioChunks := []
              stream := some ()
              startTime := now }
        else Except.error RecErr.deviceUnavailable
  else Except.error RecErr.unsupported

/-- The `ondataavailable` handler: push the event's blob only when its size is
positive. -/
def handleDataAvailable (svc : RecSvc) (b : Blob) : RecSvc :=
  if b.data.length > 0 then { svc with audioChunks := List.append svc.audioChunks [b] }
  else svc

/-- Which of the asynchronous outcomes of `stopRecording` occurred: `onstop`
fired, `onerror` fired, the 5-second timer fired first, or the synchronous
`stop()` call threw. -/
inductive StopEvent where
  | stopFired
  | errorFired
  | timedOut
  | stopThrew
deriving DecidableEq, Repr

/-- `AudioRecorderService.cleanup`: drop the recorder handle, empty the chunk
buffer, reset the start timestamp; the stream is kept alive. -/
def cleanup (svc : RecSvc) : RecSvc :=
  { svc with mediaRecorder := none, audioChunks := [], startTime := 0 }

/-- `AudioRecorderService.stopRecording`, as a function of which outcome
occurred. Mirrors the source: no recorder → reject; state neither `recording`
nor `paused` → reject; timeout → reject with no cleanup; `onerror` or a throw
from `stop()` → reject after cleanup; `onstop` → mime from the recorder with an
`audio/webm` fallback for an empty report, reject `noData` on an empty chunk
buffer, otherwise concatenate the chunks and clean up. -/
def stopRecording (svc : RecSvc) (ev : StopEvent) : Except RecErr Blob × RecSvc :=
  match svc.mediaRecorder with
  | none => (Except.error RecErr.noActive, svc)
  | some m =>
      if m.state ≠ MRState.recording ∧ m.state ≠ MRState.paused then
        (Except.error RecErr.invalidStopState, svc)
      else
        match ev with
        | StopEvent.timedOut => (Except.error RecErr.stopTimeout, svc)
        | StopEvent.errorFired => (Except.error RecErr.recorderError, cleanup svc)
        | StopEvent.stopThrew => (Except.error RecErr.stopThrew, cleanup svc)
        | StopEvent.stopFired =>
            let mt := if m.mimeType ≠ "" then m.mimeType else "audio/webm"
            if svc.audioChunks.isEmpty then (Except.error RecErr.noData, svc)
            else
              (Except.ok { data := List.flatten (List.map (fun c => c.data) svc.audioChunks), type := mt },
               cleanup svc)

/-- `AudioRecorderService.isRecording`. -/
def isRecording (svc : RecSvc) : Bool :=
  match svc.mediaRecorder with
  | some m => m.state == MRState.recording
  | none => false

/-- Decidable substring test, modelling JavaScript `String.includes`. -/
def substrOf (needle hay : String) : Bool :=
  List.any hay.toList.tails (fun t => List.isPrefixOf needle.toList t)

/-- The filename chosen by `transcribeAudio` from the blob's type: default
`recording.webm`, overridden for types containing `mp4`, `ogg` or `wav`. -/
def fileNameFor (t : String) : String :=
  if substrOf "mp4" t then "recording.mp4"
  else if substrOf "ogg" t then "recording.ogg"
  else if substrOf "wav" t then "recording.wav"
  else "recording.webm"

/-- The multipart POST built by `transcribeAudio`: file field (name and bytes),
the fixed model and response-format fields, and the bearer credential. -/
structure TranscribeRequest where
  fileName : String
  payload : List Nat
  modelName : String
  responseFormat : String
  bearer : String
deriving DecidableEq, Repr

/-- What the remote endpoint does with the request. -/
inductive NetResponse where
  | success (text : String)
  | httpError (msg : String)
  | transportFail
deriving DecidableEq, Repr

/-- Errors surfaced by `transcribeAudio`. -/
inductive TransErr where
  | remoteError (msg : String)
  | networkError
deriving DecidableEq, Repr

/-- The successful transcription value (segment passthrough is not needed by
any claim and is omitted from the model). -/
structure TranscriptionResult where
  text : String
deriving DecidableEq, Repr

/-- `TranscriptionService.transcribeAudio`: builds the form data and issues the
request unconditionally (there is no emptiness or credential check in the
body), then maps the response. The second component is the trace of requests
issued during the call. -/
def transcribeAudio (apiKey : String) (audioBlob : Blob) (resp : NetResponse) :
    Except TransErr TranscriptionResult × List TranscribeRequest :=
  let req : TranscribeRequest :=
    { fileName := fileNameFor audioBlob.type
      payload := audioBlob.data
      modelName := "whisper-1"
      responseFormat := "verbose_json"
      bearer := apiKey }
  match resp with
  | NetResponse.success text => (Except.ok { text := text }, [req])
  | NetResponse.httpError msg => (Except.error (TransErr.remoteError msg), [req])
  | NetResponse.transportFail => (Except.error TransErr.networkError, [req])

/-- An HTMLAudioElement: its source URL, paused flag and playback position. -/
structure AudioEl where
  src : String
  paused : Bool
  currentTime : Nat
deriving DecidableEq, Repr

/-- The mutable fields of `AudioPlayerService`. -/
structure Player where
  audio : Option AudioEl
  currentUri : Option String
deriving DecidableEq, Repr

/-- `AudioPlayerService.stopAudio`: pause, rewind and drop the element, clear
the current URI. The net state is always the empty player. -/
def stopAudio (p : Player) : Player :=
  match p.audio with
  | some _ => { audio := none, currentUri := none }
  | none => { audio := none, currentUri := none }

/-- `AudioPlayerService.playAudio`: when the same URI is loaded and an element
exists, toggle (resume when paused, pause when playing); otherwise stop
whatever is active and start a fresh element at position 0. -/
def playAudio (p : Player) (uri : String) : Player :=
  if p.currentUri = some uri then
    match p.audio with
    | some a =>
        if a.paused then { p with audio := some { a with paused := false } }
        else { p with audio := some { a with paused := true } }
    | none =>
        let p1 := stopAudio p
        { p1 with
            audio := some { src := uri, paused := false, currentTime := 0 }
            currentUri := some uri }
  else
    let p1 := stopAudio p
    { p1 with
        audio := some { src := uri, paused := false, currentTime := 0 }
        currentUri := some uri }

/-- The empty process state. -/
def env0 : Env := { store := [], nextUrl := 0, revoked := [] }

/-- A recording whose Blob carries an empty mime type. -/
def recEmptyMime : Recording :=
  { id := "c1"
    uri := ""
    audioBlob := some { data := [1, 2, 3], type := "" }
    audioData := none
    mimeType := none
    duration := 3
    date := 0
    transcript := none
    isTranscribing := none
    title := none }

/-- A recording carrying both a blob URL and a binary payload, as produced by
the recorder view before saving. -/
def recStaleUri : Recording :=
  { id := "c2"
    uri := "blob:stale"
    audioBlob := some { data := [7, 8], type := "audio/webm" }
    audioData := none
    mimeType := none
    duration := 1
    date := 0
    transcript := none
    isTranscribing := none
    title := none }

/-- A well-formed recording used to witness the round-trip law. -/
def recRound : Recording :=
  { id := "w1"
    uri := "blob:w"
    audioBlob := some { data := [1, 2, 3], type := "audio/webm" }
    audioData := none
    mimeType := none
    duration := 2
    date := 5
    transcript := none
    isTranscribing := none
    title := none }

/-- A device supporting only `audio/webm`. -/
def devWebm : Device :=
  { hasMediaDevices := true
    getUserMediaOk := true
    supported := fun m => m == "audio/webm"
    defaultMime := "audio/device" }

/-- A device supporting mp4 and ogg but not webm. -/
def devA : Device :=
  { hasMediaDevices := true
    getUserMediaOk := true
    supported := fun m => m == "audio/mp4" || m == "audio/ogg"
    defaultMime := "audio/a" }

/-- A device agreeing with `devA` on the three preference-list entries but on
nothing else. -/
def devB : Device :=
  { hasMediaDevices := false
    getUserMediaOk := false
    supported := fun m => !(m == "audio/webm")
    defaultMime := "audio/b" }

/-- A service state in the middle of a recording. -/
def svcRecW : RecSvc :=
  { mediaRecorder := some { mimeType := "audio/webm", state := MRState.recording }
    audioChunks := [{ data := [9], type := "audio/webm" }]
    stream := some ()
    startTime := 7 }

/-- A patch setting only the transcript, as in the spec's scenario. -/
def patchTranscript : RecordingPatch :=
  { id := none
    uri := none
    audioBlob := none
    audioData := none
    mimeType := none
    duration := none
    date := none
    transcript := some (some "x")
    isTranscribing := none
    title := none }

/-- A store state holding one unrelated row. -/
def envOneRow : Env :=
  { store := [recRound], nextUrl := 4, revoked := [] }

/-- A player with a paused element loaded. -/
def playerPausedW : Player :=
  { audio := some { src := "blob:a", paused := true, currentTime := 7 }
    currentUri := some "blob:a" }

/-- The fixed, ordered mime-type preference list of `startRecording`. -/
def mimePrefs : List String := ["audio/webm", "audio/mp4", "audio/ogg"]

/-- A recorder service at rest with a warm stream. -/
def svcIdle : RecSvc :=
  { mediaRecorder := none, audioChunks := [], stream := some (), startTime := 0 }

/-- The service state right after `startRecording` on `devWebm` at time 5. -/
def svcStarted : RecSvc :=
  { mediaRecorder := some { mimeType := "audio/webm", state := MRState.recording }
    audioChunks := []
    stream := some ()
    startTime := 5 }

/-- One non-empty data event. -/
def eventsW : List Blob := [{ data := [1, 2], type := "" }]

/-- The payload assembled from `eventsW` under the webm tag. -/
def blobW : Blob := { data := [1, 2], type := "audio/webm" }

/-- A zero-length payload. -/
def emptyBlob : Blob := { data := [], type := "audio/webm" }

theorem find?_map_put (r : Recording) (s : Store)
    (hany : List.any s (fun x => x.id == r.id) = true) :
    List.find? (fun x => x.id == r.id)
      (List.map (fun x => if x.id == r.id then r else x) s) = some r := by
  induction s with
  | nil => simp at hany
  | cons a t ih =>
      by_cases ha : (a.id == r.id) = true
      · simp only [List.map_cons, if_pos ha]
        exact List.find?_cons_of_pos _ (by simp)
      · have ha' : (a.id == r.id) = false := Bool.eq_false_iff.mpr ha
        simp only [List.map_cons, if_neg ha]
        have hstep : List.find? (fun x => x.id == r.id)
            (a :: List.map (fun x => if x.id == r.id then r else x) t)
            = List.find? (fun x => x.id == r.id)
              (List.map (fun x => if x.id == r.id then r else x) t) :=
          List.find?_cons_of_neg _ ha
        rw [hstep]
        apply ih
        simp only [List.any_cons, ha', Bool.false_or] at hany
        exact hany

theorem find?_append_put (r : Recording) (s : Store)
    (hno : List.any s (fun x => x.id == r.id) = false) :
    List.find? (fun x => x.id == r.id) (List.append s [r]) = some r := by
  induction s with
  | nil =>
      simp only [List.append_eq, List.nil_append]
      exact List.find?_cons_of_pos _ (by simp)
  | cons a t ih =>
      rw [List.any_cons] at hno
      cases ha : (a.id == r.id) with
      | true => rw [ha] at hno; simp at hno
      | false =>
          rw [ha, Bool.false_or] at hno
          simp only [List.append_eq, List.cons_append]
          have hstep : List.find? (fun x => x.id == r.id) (a :: (t ++ [r]))
              = List.find? (fun x => x.id == r.id) (t ++ [r]) :=
            List.find?_cons_of_neg _ (by simp [ha])
          rw [hstep]
          have := ih hno
          simpa using this

theorem dbGet_dbPut_self (s : Store) (r : Recording) :
    dbGet (dbPut s r) r.id = some r := by
  unfold dbGet dbPut
  by_cases hany : List.any s (fun x => x.id == r.id) = true
  · rw [if_pos hany]
    exact find?_map_put r s hany
  · rw [if_neg hany]
    exact find?_append_put r s (Bool.eq_false_iff.mpr hany)

theorem dbGet_dbDelete_self (s : Store) (id : String) :
    dbGet (dbDelete s id) id = none := by
  unfold dbGet dbDelete
  rw [List.find?_eq_none]
  intro x hx
  have hmem := List.of_mem_filter hx
  simp only [Bool.not_eq_true'] at hmem
  simp [hmem]

theorem dbDelete_of_get_none (s : Store) (id : String)
    (h : dbGet s id = none) : dbDelete s id = s := by
  unfold dbGet at h
  unfold dbDelete
  rw [List.filter_eq_self]
  intro x hx
  rw [List.find?_eq_none] at h
  have hx' := h x hx
  simp [Bool.eq_false_iff.mpr hx']

theorem rehydrate_audioBlob (rec : Recording) (n : Nat) (bytes : List Nat) (mt : String)
    (hd : rec.audioData = some bytes) (hm : rec.mimeType = some mt) (hne : mt ≠ "") :
    (rehydrate rec n).1.audioBlob = some { data := bytes, type := mt } := by
  unfold rehydrate
  rw [hd, hm]
  simp only [if_pos hne]
  split <;> rfl

/-- C1 (counterexample): the claim fails for a payload whose mime type is the
empty string — `saveRecording` stores the bytes, but `getRecording` skips the
Blob reconstruction because the stored `mimeType` is falsy, so the returned
row carries no payload Blob at all. -/
theorem saveRecording_getRecording_empty_mime_cex :
    Option.map (fun x => x.audioBlob)
      (getRecording (saveRecording env0 recEmptyMime) "c1").1 = some none := by
  decide

/-- C1 (amended): for every recording holding a Blob payload with a non-empty
mime type, `saveRecording` followed by `getRecording` on its id returns a row
whose reconstructed Blob has exactly the saved bytes and mime type. -/
theorem saveRecording_getRecording_roundtrip (env : Env) (r : Recording) (blob : Blob)
    (hb : r.audioBlob = some blob) (ht : blob.type ≠ "") :
    Option.map (fun x => x.audioBlob)
      (getRecording (saveRecording env r) r.id).1 = some (some blob) := by
  unfold saveRecording
  rw [hb]
  unfold getRecording
  have hget : dbGet (dbPut env.store { r with audioBlob := none, audioData := some blob.data, mimeType := some blob.type }) r.id = some { r with audioBlob := none, audioData := some blob.data, mimeType := some blob.type } :=
    dbGet_dbPut_self env.store _
  simp only [hget]
  have hrb := rehydrate_audioBlob
      { r with audioBlob := none, audioData := some blob.data, mimeType := some blob.type }
      env.nextUrl blob.data blob.type rfl rfl ht
  simp only [Option.map_some', hrb]

/-- C1 (witness): concrete round trip for a webm recording. -/
theorem saveRecording_getRecording_roundtrip_witness :
    Option.map (fun x => x.audioBlob)
      (getRecording (saveRecording env0 recRound) recRound.id).1
      = some (some { data := [1, 2, 3], type := "audio/webm" }) :=
  saveRecording_getRecording_roundtrip env0 recRound
    { data := [1, 2, 3], type := "audio/webm" } rfl (by decide)

/-- C2 (failing input, evaluated): saving a recording whose `uri` is
`blob:stale` persists that handle into the stored row, and both read
operations return the persisted stale handle unchanged — no fresh handle is
generated (the URL counter stays at 0). -/
theorem saveRecording_persists_stale_uri :
    Option.map (fun x => x.uri)
      (dbGet (saveRecording env0 recStaleUri).store "c2") = some "blob:stale" ∧
    Option.map (fun x => x.uri)
      (getRecording (saveRecording env0 recStaleUri) "c2").1 = some "blob:stale" ∧
    List.map (fun x => x.uri)
      (getAllRecordings (saveRecording env0 recStaleUri)).1 = ["blob:stale"] ∧
    (getRecording (saveRecording env0 recStaleUri) "c2").2.nextUrl = 0 := by
  decide

/-- C8: updating an id that is absent from the store leaves the whole state
unchanged, in particular the row count. -/
theorem updateRecording_absent_id_noop (env : Env) (id : String) (p : RecordingPatch)
    (h : dbGet env.store id = none) :
    updateRecording env id p = env ∧
    (updateRecording env id p).store.length = env.store.length := by
  have heq : updateRecording env id p = env := by
    unfold updateRecording
    rw [h]
  exact ⟨heq, by rw [heq]⟩

/-- C8 (witness): updating a missing id on a one-row store changes nothing. -/
theorem updateRecording_absent_id_noop_witness :
    updateRecording envOneRow "absent" patchTranscript = envOneRow ∧
    (updateRecording envOneRow "absent" patchTranscript).store.length
      = envOneRow.store.length :=
  updateRecording_absent_id_noop envOneRow "absent" patchTranscript (by decide)

/-- C9: after a delete, getting the same id returns not-found, and deleting
the same id again is a complete no-op on the state (it does not fail — the
operation is total — and changes neither the table nor the revocation list). -/
theorem deleteRecording_get_none_and_idempotent (env : Env) (id : String) :
    (getRecording (deleteRecording env id) id).1 = none ∧
    deleteRecording (deleteRecording env id) id = deleteRecording env id := by
  have hstore : (deleteRecording env id).store = dbDelete env.store id := by
    unfold deleteRecording
    cases hdg : dbGet env.store id with
    | some rec => by_cases hu : rec.uri ≠ "" <;> simp [hdg, hu]
    | none => simp [hdg]
  have hget : dbGet (deleteRecording env id).store id = none := by
    rw [hstore]
    exact dbGet_dbDelete_self env.store id
  constructor
  · unfold getRecording
    rw [hget]
  · set env2 := deleteRecording env id with henv2
    show deleteRecording env2 id = env2
    unfold deleteRecording
    rw [hget]
    show { env2 with store := dbDelete env2.store id } = env2
    rw [dbDelete_of_get_none env2.store id hget]

theorem startRecording_ok_shape (svc : RecSvc) (d : Device) (now : Nat) (svc1 : RecSvc)
    (h : startRecording svc d now = Except.ok svc1) :
    svc1 = { mediaRecorder := some { mimeType := selectMime d, state := MRState.recording }
             audioChunks := []
             stream := some ()
             startTime := now } := by
  unfold startRecording at h
  by_cases hd : d.hasMediaDevices = true
  · rw [if_pos hd] at h
    cases hs : svc.stream with
    | some u =>
        simp only [hs] at h
        injection h with h
        exact h.symm
    | none =>
        simp only [hs] at h
        by_cases hg : d.getUserMediaOk = true
        · rw [if_pos hg] at h
          injection h with h
          exact h.symm
        · rw [if_neg hg] at h
          exact Except.noConfusion h
  · rw [if_neg hd] at h
    exact Except.noConfusion h

theorem foldl_feed_mediaRecorder (events : List Blob) (svc : RecSvc) :
    (List.foldl handleDataAvailable svc events).mediaRecorder = svc.mediaRecorder := by
  induction events generalizing svc with
  | nil => rfl
  | cons e es ih =>
      rw [List.foldl_cons, ih]
      unfold handleDataAvailable
      split <;> rfl

theorem foldl_feed_chunks_pos (events : List Blob) (svc : RecSvc)
    (h : ∀ c ∈ svc.audioChunks, 0 < c.data.length) :
    ∀ c ∈ (List.foldl handleDataAvailable svc events).audioChunks, 0 < c.data.length := by
  induction events generalizing svc with
  | nil => exact h
  | cons e es ih =>
      rw [List.foldl_cons]
      apply ih
      by_cases hpos : e.data.length > 0
      · simp only [handleDataAvailable, if_pos hpos, List.append_eq]
        intro c hc
        rcases List.mem_append.mp hc with h1 | h2
        · exact h c h1
        · rw [List.mem_singleton] at h2
          subst h2
          exact hpos
      · simp only [handleDataAvailable, if_neg hpos]
        exact h

theorem flatten_chunks_pos (chunks : List Blob) (hne : chunks ≠ [])
    (h : ∀ c ∈ chunks, 0 < c.data.length) :
    0 < (List.flatten (List.map (fun c => c.data) chunks)).length := by
  cases chunks with
  | nil => exact absurd rfl hne
  | cons c cs =>
      have hc : 0 < c.data.length := h c (List.mem_cons_self c cs)
      simp only [List.map_cons, List.flatten_cons, List.length_append]
      exact Nat.lt_of_lt_of_le hc (Nat.le_add_right _ _)

theorem selectMime_ne_empty (d : Device) (hdm : d.defaultMime ≠ "") :
    selectMime d ≠ "" := by
  unfold selectMime chooseOptions
  by_cases h1 : d.supported "audio/webm" = true
  · rw [if_pos h1, Option.getD_some]
    decide
  · rw [if_neg h1]
    by_cases h2 : d.supported "audio/mp4" = true
    · rw [if_pos h2, Option.getD_some]
      decide
    · rw [if_neg h2]
      by_cases h3 : d.supported "audio/ogg" = true
      · rw [if_pos h3, Option.getD_some]
        decide
      · rw [if_neg h3, Option.getD_none]
        exact hdm

theorem stopRecording_stopFired_ok (svc : RecSvc) (mt : String)
    (hm : svc.mediaRecorder = some { mimeType := mt, state := MRState.recording })
    (hmt : mt ≠ "") (hch : svc.audioChunks ≠ []) :
    stopRecording svc StopEvent.stopFired
      = (Except.ok { data := List.flatten (List.map (fun c => c.data) svc.audioChunks), type := mt },
         cleanup svc) := by
  have hie : svc.audioChunks.isEmpty = false := by
    cases hc : svc.audioChunks with
    | nil => exact absurd hc hch
    | cons a t => rfl
  simp [stopRecording, hm, hmt, hie]

theorem stopRecording_stopFired_noData (svc : RecSvc) (m : MRec)
    (hm : svc.mediaRecorder = some m)
    (hst : m.state = MRState.recording ∨ m.state = MRState.paused)
    (hch : svc.audioChunks = []) :
    (stopRecording svc StopEvent.stopFired).1 = Except.error RecErr.noData := by
  rcases hst with h | h <;> simp [stopRecording, hm, h, hch]

/-- C3 (counterexample): with a recording already in progress, `startRecording`
does not fail — it succeeds and installs a fresh recorder with an emptied
chunk buffer, beginning a second capture. -/
theorem startRecording_while_recording_cex :
    isRecording svcRecW = true ∧
    startRecording svcRecW devWebm 9 = Except.ok
      { mediaRecorder := some { mimeType := "audio/webm", state := MRState.recording }
        audioChunks := []
        stream := some ()
        startTime := 9 } := by
  decide

/-- C3 (amended): `startRecording` performs no in-progress check: called while
a recording is in progress (on a present stream and a supporting browser), it
succeeds, replacing the recorder handle with a new one and resetting the chunk
buffer and start timestamp, thereby beginning a second capture. -/
theorem startRecording_no_invalid_state_check (svc : RecSvc) (d : Device) (now : Nat) (m : MRec)
    (hm : svc.mediaRecorder = some m) (hrec : m.state = MRState.recording)
    (hs : svc.stream = some ()) (hd : d.hasMediaDevices = true) :
    startRecording svc d now = Except.ok
      { mediaRecorder := some { mimeType := selectMime d, state := MRState.recording }
        audioChunks := []
        stream := some ()
        startTime := now } := by
  simp [startRecording, hd, hs]

/-- C3 (witness): the amended statement at a concrete in-progress state. -/
theorem startRecording_no_invalid_state_check_witness :
    startRecording svcRecW devWebm 9 = Except.ok
      { mediaRecorder := some { mimeType := selectMime devWebm, state := MRState.recording }
        audioChunks := []
        stream := some ()
        startTime := 9 } :=
  startRecording_no_invalid_state_check svcRecW devWebm 9
    { mimeType := "audio/webm", state := MRState.recording } rfl rfl rfl rfl

/-- C4 (counterexample): on timeout `stopRecording` rejects with the timeout
error but the session is not forced back to idle — the recorder handle, the
chunk buffer and the start timestamp are all left in place. -/
theorem stopRecording_timeout_cex :
    (stopRecording svcRecW StopEvent.timedOut).1 = Except.error RecErr.stopTimeout ∧
    (stopRecording svcRecW StopEvent.timedOut).2.mediaRecorder
      = some { mimeType := "audio/webm", state := MRState.recording } ∧
    (stopRecording svcRecW StopEvent.timedOut).2.audioChunks
      = [{ data := [9], type := "audio/webm" }] ∧
    (stopRecording svcRecW StopEvent.timedOut).2.startTime = 7 := by
  decide

/-- C4 (amended): when the 5-second timer fires first, `stopRecording` fails
with the timeout error and leaves the session state exactly as it was: no
cleanup runs, so the recorder handle, chunk buffer and start timestamp are
unchanged (a later `start()` is still possible only because `start()` itself
performs no state check). -/
theorem stopRecording_timeout_state_unchanged (svc : RecSvc) (m : MRec)
    (hm : svc.mediaRecorder = some m)
    (hst : m.state = MRState.recording ∨ m.state = MRState.paused) :
    stopRecording svc StopEvent.timedOut = (Except.error RecErr.stopTimeout, svc) := by
  rcases hst with h | h <;> simp [stopRecording, hm, h]

/-- C4 (witness): the amended statement at a concrete recording state. -/
theorem stopRecording_timeout_state_unchanged_witness :
    stopRecording svcRecW StopEvent.timedOut = (Except.error RecErr.stopTimeout, svcRecW) :=
  stopRecording_timeout_state_unchanged svcRecW
    { mimeType := "audio/webm", state := MRState.recording } rfl (Or.inl rfl)

/-- C5 (counterexample): a zero-length payload does not fail with an
empty-input error — the request is built and issued with 0 payload bytes, and
a successful response is returned as a success. -/
theorem transcribeAudio_empty_payload_cex :
    (transcribeAudio "key" emptyBlob (NetResponse.success "hi")).2
      = [{ fileName := "recording.webm"
           payload := []
           modelName := "whisper-1"
           responseFormat := "verbose_json"
           bearer := "key" }] ∧
    (transcribeAudio "key" emptyBlob (NetResponse.success "hi")).1
      = Except.ok { text := "hi" } := by
  decide

/-- C5 (amended): `transcribeAudio` performs no emptiness check: for every
payload — a zero-length one included — exactly one network request is issued,
carrying the payload bytes verbatim. -/
theorem transcribeAudio_always_one_request (apiKey : String) (audioBlob : Blob)
    (resp : NetResponse) :
    List.map (fun q => q.payload) (transcribeAudio apiKey audioBlob resp).2
      = [audioBlob.data] := by
  cases resp <;> rfl

/-- C6: for every successful `start()`, after any sequence of data events, a
successful `stop()` returns a payload of positive byte length tagged with
exactly the encoding selected at start; and with an empty chunk buffer the
stop instead fails with the no-data error. (The device is assumed to report a
non-empty default encoding.) -/
theorem startStop_payload_nonempty_and_typed
    (svc0 : RecSvc) (d : Device) (now : Nat) (events : List Blob) (svc1 : RecSvc)
    (hstart : startRecording svc0 d now = Except.ok svc1)
    (hdm : d.defaultMime ≠ "") :
    (∀ b s2, stopRecording (List.foldl handleDataAvailable svc1 events) StopEvent.stopFired
        = (Except.ok b, s2) → 0 < b.data.length ∧ b.type = selectMime d) ∧
    ((List.foldl handleDataAvailable svc1 events).audioChunks = [] →
      (stopRecording (List.foldl handleDataAvailable svc1 events) StopEvent.stopFired).1
        = Except.error RecErr.noData) := by
  have hshape := startRecording_ok_shape svc0 d now svc1 hstart
  have hmr : (List.foldl handleDataAvailable svc1 events).mediaRecorder
      = some { mimeType := selectMime d, state := MRState.recording } := by
    rw [foldl_feed_mediaRecorder, hshape]
  have hpos : ∀ c ∈ (List.foldl handleDataAvailable svc1 events).audioChunks,
      0 < c.data.length := by
    apply foldl_feed_chunks_pos
    rw [hshape]
    intro c hc
    simp at hc
  constructor
  · intro b s2 hstop
    by_cases hch : (List.foldl handleDataAvailable svc1 events).audioChunks = []
    · have hnd := stopRecording_stopFired_noData _ _ hmr (Or.inl rfl) hch
      rw [hstop] at hnd
      exact Except.noConfusion hnd
    · rw [stopRecording_stopFired_ok _ _ hmr (selectMime_ne_empty d hdm) hch] at hstop
      have h1 := congrArg Prod.fst hstop
      simp only [] at h1
      injection h1 with h1
      subst h1
      exact ⟨flatten_chunks_pos _ hch hpos, rfl⟩
  · intro hch
    exact stopRecording_stopFired_noData _ _ hmr (Or.inl rfl) hch

/-- C6 (witness): a concrete start, one 2-byte data event, and a successful
stop: the payload has positive length and the webm tag selected at start. -/
theorem startStop_payload_nonempty_and_typed_witness :
    0 < blobW.data.length ∧ blobW.type = selectMime devWebm :=
  (startStop_payload_nonempty_and_typed svcIdle devWebm 5 eventsW svcStarted
      (by decide) (by decide)).1 blobW svcIdle (by decide)

/-- C7: `startRecording` commits to the first entry of the fixed preference
list (webm, mp4, ogg) the device supports, and the committed option depends
only on the device's support answers for those three entries. -/
theorem chooseOptions_first_supported (d : Device) :
    chooseOptions d = List.find? d.supported mimePrefs ∧
    (∀ d2 : Device, (∀ m ∈ mimePrefs, d.supported m = d2.supported m) →
        chooseOptions d = chooseOptions d2) := by
  constructor
  · by_cases h1 : d.supported "audio/webm" = true
    · simp [chooseOptions, mimePrefs, List.find?, h1]
    · by_cases h2 : d.supported "audio/mp4" = true
      · simp [chooseOptions, mimePrefs, List.find?, h1, h2]
      · by_cases h3 : d.supported "audio/ogg" = true
        · simp [chooseOptions, mimePrefs, List.find?, h1, h2, h3]
        · simp [chooseOptions, mimePrefs, List.find?, h1, h2, h3]
  · intro d2 hag
    have e1 := hag "audio/webm" (by simp [mimePrefs])
    have e2 := hag "audio/mp4" (by simp [mimePrefs])
    have e3 := hag "audio/ogg" (by simp [mimePrefs])
    unfold chooseOptions
    rw [e1, e2, e3]

/-- C7 (witness): concrete devices agreeing on the three preference entries
but nowhere else commit to the same option, here mp4. -/
theorem chooseOptions_first_supported_witness :
    chooseOptions devA = some "audio/mp4" ∧ chooseOptions devA = chooseOptions devB :=
  ⟨(chooseOptions_first_supported devA).1.trans (by decide),
   (chooseOptions_first_supported devA).2 devB (by decide)⟩

/-- C10: requesting the currently loaded handle toggles the element — resume
when paused, pause when playing — keeping its source and position; requesting
anything else tears the active element down and starts a fresh one at
position 0. -/
theorem playAudio_toggle_and_restart (p : Player) (u : String) :
    (∀ a, p.currentUri = some u → p.audio = some a →
        playAudio p u = { audio := some { src := a.src, paused := !a.paused,
                                          currentTime := a.currentTime }
                          currentUri := p.currentUri }) ∧
    (p.currentUri ≠ some u →
        playAudio p u = { audio := some { src := u, paused := false, currentTime := 0 }
                          currentUri := some u }) := by
  constructor
  · intro a hcu ha
    unfold playAudio
    rw [if_pos hcu]
    simp only [ha]
    cases hp : a.paused <;> simp [hp]
  · intro hne
    unfold playAudio
    rw [if_neg hne]

/-- C10 (witness): playing the loaded, paused handle resumes it in place. -/
theorem playAudio_toggle_and_restart_witness :
    playAudio playerPausedW "blob:a"
      = { audio := some { src := "blob:a", paused := false, currentTime := 7 }
          currentUri := some "blob:a" } :=
  (playAudio_toggle_and_restart playerPausedW "blob:a").1
    { src := "blob:a", paused := true, currentTime := 7 } rfl rfl

end VR
